import Mathlib

/-!
A shallow embedding of the shade-map-finder application logic:
the backend HTTP handlers (health, config, geocode proxy), the
route-candidate collection and selection logic of the frontend
(`calculateRoute` / the route-type selection effect in `App.tsx`),
the shade-score heuristic (`sampleShadowAlongRoute`), and the
waypoint generator (`generateShadedWaypoints`).

Conventions:
* JavaScript numbers are modelled as `ℚ` where only comparisons and
  rational arithmetic occur (distances/durations/scores of route
  candidates), and as `ℝ` where the code uses `Math.sin` / `Math.sqrt`.
* `process.env.X` is an `Option String` (`none` = variable unset);
  JavaScript falsiness of a string (`!s`) is `truthy` below, which is
  `false` for `none` and for the empty string.
* GeoJSON geometries are lists of coordinate pairs `(c0, c1)` holding
  the raw array entries `[c0, c1]` (so `c0` = longitude, `c1` =
  latitude); `start`/`end` points of waypoint generation are `(lat,
  lng)` pairs, as in the source.
-/

namespace ShadeMapFinder

/-! ### Backend (server part: health, config, geocode handlers) -/

/-- JavaScript truthiness of an optional string: `undefined` and the
empty string are falsy, everything else truthy. -/
def truthy : Option String → Bool
  | none => false
  | some s => !s.isEmpty

/-- Response of `GET /api/config`: an HTTP status plus the JSON body,
which either carries the two API keys or an error message. -/
structure ConfigResponse where
  status : Nat
  shadeMapApiKey : Option String
  openRouteServiceApiKey : Option String
  error : Option String
deriving DecidableEq

/-- The `/api/config` handler: reads `SHADEMAP_API_KEY` and
`ORS_API_KEY` from the environment; if either is falsy it responds
500 with an error body, otherwise 200 with both keys. -/
def configHandler (shadeMapEnv orsEnv : Option String) : ConfigResponse :=
  if !truthy shadeMapEnv || !truthy orsEnv then
    { status := 500, shadeMapApiKey := none, openRouteServiceApiKey := none,
      error := some "API keys not configured. Please set SHADEMAP_API_KEY and ORS_API_KEY environment variables." }
  else
    { status := 200, shadeMapApiKey := shadeMapEnv, openRouteServiceApiKey := orsEnv,
      error := none }

/-- Response of `GET /api/health`: the JSON body `{ok: true}`. -/
structure HealthResponse where
  ok : Bool
deriving DecidableEq

/-- The `/api/health` handler always answers `{ok: true}`. -/
def healthHandler : HealthResponse := { ok := true }

/-- What the `/api/geocode` handler does before any network traffic:
either it answers immediately with an error status, or it issues the
upstream geocoding fetch for the given query text. -/
inductive GeocodeAction where
  | respondError (status : Nat) (error : String)
  | fetchUpstream (query : String)
deriving DecidableEq

/-- The `/api/geocode` handler: a falsy `q` query parameter is
rejected with 400 before anything else; then a falsy `ORS_API_KEY`
gives 500; otherwise the upstream request is issued. -/
def geocodeHandler (q orsEnv : Option String) : GeocodeAction :=
  if !truthy q then
    .respondError 400 "Query parameter required"
  else if !truthy orsEnv then
    .respondError 500 "ORS_API_KEY not configured"
  else
    .fetchUpstream (q.getD "")

/-! ### Route candidates, deduplication and selection (frontend) -/

/-- A scored route candidate as held in `allRoutes` UI state: only
the fields the collection/selection logic reads. -/
structure Route where
  distance : ℚ
  duration : ℚ
  shadeScore : ℚ
deriving DecidableEq

/-- `calculateRoute`: a fetched candidate is a duplicate when some
already-kept candidate's distance is within 50 meters of its own. -/
def isDuplicate (existing : List Route) (r : Route) : Bool :=
  existing.any (fun e => |e.distance - r.distance| < 50)

/-- One step of candidate collection: keep the fetched candidate
unless it is a duplicate of an already-kept one. -/
def addRoute (existing : List Route) (r : Route) : List Route :=
  if isDuplicate existing r then existing else existing ++ [r]

/-- Candidate collection: fold the fetched results through the
duplicate check, in arrival order. -/
def collectRoutes (fetched : List Route) : List Route :=
  fetched.foldl addRoute []

/-- The user's route-type preference. -/
inductive RouteType where
  | fastest
  | shadiest
deriving DecidableEq

/-- Insert a candidate into a list kept in descending shade-score
order (the comparator `(a, b) => b.shadeScore - a.shadeScore`). -/
def insertByShadeDesc (r : Route) : List Route → List Route
  | [] => [r]
  | x :: xs =>
      if x.shadeScore ≤ r.shadeScore then r :: x :: xs
      else x :: insertByShadeDesc r xs

/-- `.sort((a, b) => b.shadeScore - a.shadeScore)`: sort candidates
by descending shade score. -/
def sortByShadeDesc (l : List Route) : List Route :=
  l.foldr insertByShadeDesc []

/-- Route selection (identical in the route-type effect and in
`calculateRoute`): mode `fastest` takes the first candidate; mode
`shadiest` filters to candidates within 1.5× the first candidate's
distance, sorts the survivors by descending shade score and takes
the head, falling back to the first candidate when the filter is
empty. -/
def selectRoute (t : RouteType) : List Route → Option Route
  | [] => none
  | r0 :: rs =>
      some (match t with
        | .fastest => r0
        | .shadiest =>
            let maxDistance := r0.distance * 1.5
            let validRoutes := (r0 :: rs).filter (fun r => r.distance ≤ maxDistance)
            (sortByShadeDesc validRoutes).headD r0)

/-! ### Lemmas about sorting and selection -/

theorem mem_insertByShadeDesc {y r : Route} {l : List Route} :
    y ∈ insertByShadeDesc r l ↔ y = r ∨ y ∈ l := by
  induction l with
  | nil => simp [insertByShadeDesc]
  | cons x xs ih =>
      by_cases h : x.shadeScore ≤ r.shadeScore
      · simp [insertByShadeDesc, h]
      · simp [insertByShadeDesc, h, ih]
        tauto

/-- The head of the descending sort is a member of the list and has
maximal shade score. -/
theorem sortByShadeDesc_head_max (l : List Route) (hne : l ≠ []) :
    ∃ m t, sortByShadeDesc l = m :: t ∧ m ∈ l ∧
      ∀ y ∈ l, y.shadeScore ≤ m.shadeScore := by
  induction l with
  | nil => exact absurd rfl hne
  | cons r rest ih =>
      rcases eq_or_ne rest [] with hrest | hrest
      · subst hrest
        exact ⟨r, [], rfl, List.mem_singleton.mpr rfl, by simp⟩
      · obtain ⟨m, t, hsort, hmem, hmax⟩ := ih hrest
        have hstep : sortByShadeDesc (r :: rest) = insertByShadeDesc r (m :: t) := by
          simp [sortByShadeDesc, List.foldr] at hsort ⊢
          rw [hsort]
        by_cases h : m.shadeScore ≤ r.shadeScore
        · refine ⟨r, m :: t, ?_, List.mem_cons_self r rest, ?_⟩
          · rw [hstep]; simp [insertByShadeDesc, h]
          · intro y hy
            rcases List.mem_cons.mp hy with hy | hy
            · simp [hy]
            · exact le_trans (hmax y hy) h
        · refine ⟨m, insertByShadeDesc r t, ?_, List.mem_cons_of_mem r hmem, ?_⟩
          · rw [hstep]; simp [insertByShadeDesc, h]
          · intro y hy
            rcases List.mem_cons.mp hy with hy | hy
            · subst hy; exact le_of_not_le h
            · exact hmax y hy

/-! ### Claim C1: shadiest-route selection -/

/-- C1: for a non-empty candidate list whose first element is the
fastest, selection in mode `shadiest` returns a candidate within
1.5× the first candidate's distance with maximal shade score among
candidates within that bound, and falls back to the first (fastest)
candidate when no candidate is within the bound. -/
theorem selectRoute_shadiest_spec (r0 : Route) (rs : List Route)
    (hfast : ∀ r ∈ r0 :: rs, r0.duration ≤ r.duration) :
    ∃ sel, selectRoute .shadiest (r0 :: rs) = some sel ∧
      ((∃ r ∈ r0 :: rs, r.distance ≤ r0.distance * 1.5) →
        sel ∈ r0 :: rs ∧ sel.distance ≤ r0.distance * 1.5 ∧
        ∀ r ∈ r0 :: rs, r.distance ≤ r0.distance * 1.5 →
          r.shadeScore ≤ sel.shadeScore) ∧
      ((∀ r ∈ r0 :: rs, ¬ r.distance ≤ r0.distance * 1.5) → sel = r0) := by
  classical
  refine ⟨(sortByShadeDesc
      ((r0 :: rs).filter (fun r => r.distance ≤ r0.distance * 1.5))).headD r0,
    by simp [selectRoute], ?_, ?_⟩
  · rintro ⟨r, hr, hrd⟩
    have hrv : r ∈ (r0 :: rs).filter (fun r => r.distance ≤ r0.distance * 1.5) :=
      List.mem_filter.mpr ⟨hr, by simpa using hrd⟩
    have hvne : (r0 :: rs).filter (fun r => r.distance ≤ r0.distance * 1.5) ≠ [] :=
      List.ne_nil_of_mem hrv
    obtain ⟨m, t, hsort, hmem, hmax⟩ := sortByShadeDesc_head_max _ hvne
    rw [hsort]
    have hm := List.mem_filter.mp hmem
    refine ⟨hm.1, by simpa using hm.2, ?_⟩
    intro q hq hqd
    exact hmax q (List.mem_filter.mpr ⟨hq, by simpa using hqd⟩)
  · intro hnone
    have hnil : (r0 :: rs).filter (fun r => r.distance ≤ r0.distance * 1.5) = [] := by
      rw [List.filter_eq_nil_iff]
      intro a ha
      simpa using hnone a ha
    rw [hnil]
    rfl

/-- Witness for C1 at a concrete three-candidate list: the fastest
route is 1000 m / 600 s with score 30, the other candidates are
1400 m (score 80) and 1600 m (score 90); the 1600 m candidate is
beyond the 1500 m bound, so the selection is the 1400 m one. -/
theorem selectRoute_shadiest_spec_witness :
    ∃ sel, selectRoute .shadiest
        [(⟨1000, 600, 30⟩ : Route), ⟨1400, 700, 80⟩, ⟨1600, 800, 90⟩] = some sel ∧
      ((∃ r ∈ [(⟨1000, 600, 30⟩ : Route), ⟨1400, 700, 80⟩, ⟨1600, 800, 90⟩],
          r.distance ≤ (⟨1000, 600, 30⟩ : Route).distance * 1.5) →
        sel ∈ [(⟨1000, 600, 30⟩ : Route), ⟨1400, 700, 80⟩, ⟨1600, 800, 90⟩] ∧
        sel.distance ≤ (⟨1000, 600, 30⟩ : Route).distance * 1.5 ∧
        ∀ r ∈ [(⟨1000, 600, 30⟩ : Route), ⟨1400, 700, 80⟩, ⟨1600, 800, 90⟩],
          r.distance ≤ (⟨1000, 600, 30⟩ : Route).distance * 1.5 →
          r.shadeScore ≤ sel.shadeScore) ∧
      ((∀ r ∈ [(⟨1000, 600, 30⟩ : Route), ⟨1400, 700, 80⟩, ⟨1600, 800, 90⟩],
          ¬ r.distance ≤ (⟨1000, 600, 30⟩ : Route).distance * 1.5) → sel = ⟨1000, 600, 30⟩) :=
  selectRoute_shadiest_spec ⟨1000, 600, 30⟩ [⟨1400, 700, 80⟩, ⟨1600, 800, 90⟩]
    (by decide)

/-! ### Claim C7: route deduplication -/

/-- C7: during candidate collection, a fetched candidate whose
distance is within 50 m of some already-kept candidate's distance is
discarded, and one at distance at least 50 m from every kept
candidate's distance is appended. -/
theorem addRoute_spec (kept : List Route) (r : Route) :
    ((∃ e ∈ kept, |e.distance - r.distance| < 50) → addRoute kept r = kept) ∧
    ((∀ e ∈ kept, 50 ≤ |e.distance - r.distance|) → addRoute kept r = kept ++ [r]) := by
  constructor
  · rintro ⟨e, he, hed⟩
    have : isDuplicate kept r = true := by
      simp only [isDuplicate, List.any_eq_true, decide_eq_true_eq]
      exact ⟨e, he, hed⟩
    simp [addRoute, this]
  · intro hall
    have : isDuplicate kept r = false := by
      simp only [isDuplicate, List.any_eq_false, decide_eq_true_eq]
      intro e he
      exact not_lt.mpr (hall e he)
    simp [addRoute, this]

/-- Witness for C7: with one kept 1000 m candidate, a 1040 m fetch
(40 m apart) is discarded and a 1100 m fetch (100 m apart) is kept. -/
theorem addRoute_spec_witness :
    (((∃ e ∈ [(⟨1000, 600, 30⟩ : Route)], |e.distance - (⟨1040, 580, 40⟩ : Route).distance| < 50) →
        addRoute [(⟨1000, 600, 30⟩ : Route)] ⟨1040, 580, 40⟩ = [⟨1000, 600, 30⟩]) ∧
      ((∀ e ∈ [(⟨1000, 600, 30⟩ : Route)], 50 ≤ |e.distance - (⟨1040, 580, 40⟩ : Route).distance|) →
        addRoute [(⟨1000, 600, 30⟩ : Route)] ⟨1040, 580, 40⟩ = [⟨1000, 600, 30⟩] ++ [⟨1040, 580, 40⟩])) ∧
    (((∃ e ∈ [(⟨1000, 600, 30⟩ : Route)], |e.distance - (⟨1100, 580, 40⟩ : Route).distance| < 50) →
        addRoute [(⟨1000, 600, 30⟩ : Route)] ⟨1100, 580, 40⟩ = [⟨1000, 600, 30⟩]) ∧
      ((∀ e ∈ [(⟨1000, 600, 30⟩ : Route)], 50 ≤ |e.distance - (⟨1100, 580, 40⟩ : Route).distance|) →
        addRoute [(⟨1000, 600, 30⟩ : Route)] ⟨1100, 580, 40⟩ = [⟨1000, 600, 30⟩] ++ [⟨1100, 580, 40⟩])) :=
  ⟨addRoute_spec [⟨1000, 600, 30⟩] ⟨1040, 580, 40⟩,
   addRoute_spec [⟨1000, 600, 30⟩] ⟨1100, 580, 40⟩⟩

/-! ### Claim C8: backend config and health endpoints -/

/-- Counterexample to C8 as stated: with `SHADEMAP_API_KEY` set to
the empty string and `ORS_API_KEY` set to `"key"` — both variables
set — `/api/config` answers 500 without the keys, because the
handler tests JavaScript truthiness, under which an empty string
counts as unset. -/
theorem configHandler_counterexample :
    (some "").isSome = true ∧ (some "key").isSome = true ∧
    (configHandler (some "") (some "key")).status = 500 ∧
    (configHandler (some "") (some "key")).shadeMapApiKey = none ∧
    (configHandler (some "") (some "key")).openRouteServiceApiKey = none := by
  decide

/-- C8 (amended): `/api/config` answers 200 with both keys when both
environment variables are set to non-empty strings, and 500 with no
keys and an error body when either is unset or empty; `/api/health`
always answers `{ok: true}`. -/
theorem configHandler_spec (sm ors : Option String) :
    (truthy sm = true → truthy ors = true →
      configHandler sm ors =
        { status := 200, shadeMapApiKey := sm, openRouteServiceApiKey := ors,
          error := none }) ∧
    ((truthy sm = false ∨ truthy ors = false) →
      (configHandler sm ors).status = 500 ∧
      (configHandler sm ors).shadeMapApiKey = none ∧
      (configHandler sm ors).openRouteServiceApiKey = none ∧
      (configHandler sm ors).error ≠ none) ∧
    healthHandler = { ok := true } := by
  refine ⟨?_, ?_, rfl⟩
  · intro h1 h2
    simp [configHandler, h1, h2]
  · intro h
    have hcond : (!truthy sm || !truthy ors) = true := by
      rcases h with h | h <;> simp [h]
    simp [configHandler, hcond]

/-- Witness for C8 at concrete environments: both keys non-empty
(`"a"`, `"b"`). -/
theorem configHandler_spec_witness :
    (truthy (some "a") = true → truthy (some "b") = true →
      configHandler (some "a") (some "b") =
        { status := 200, shadeMapApiKey := some "a", openRouteServiceApiKey := some "b",
          error := none }) ∧
    ((truthy (some "a") = false ∨ truthy (some "b") = false) →
      (configHandler (some "a") (some "b")).status = 500 ∧
      (configHandler (some "a") (some "b")).shadeMapApiKey = none ∧
      (configHandler (some "a") (some "b")).openRouteServiceApiKey = none ∧
      (configHandler (some "a") (some "b")).error ≠ none) ∧
    healthHandler = { ok := true } :=
  configHandler_spec (some "a") (some "b")

/-! ### Claim C9: geocode proxy rejects a missing or empty query -/

/-- C9: a missing or empty `q` parameter makes `/api/geocode` answer
400 with an error body immediately; in particular no upstream
geocoding request is issued, whatever the `ORS_API_KEY` value. -/
theorem geocodeHandler_missing_query (q orsEnv : Option String)
    (hq : q = none ∨ q = some "") :
    geocodeHandler q orsEnv = .respondError 400 "Query parameter required" ∧
    ∀ s, geocodeHandler q orsEnv ≠ .fetchUpstream s := by
  have ht : truthy q = false := by
    rcases hq with hq | hq <;> subst hq <;> rfl
  constructor
  · simp [geocodeHandler, ht]
  · intro s
    simp [geocodeHandler, ht]

/-- Witness for C9: empty query with a configured upstream key. -/
theorem geocodeHandler_missing_query_witness :
    geocodeHandler (some "") (some "key") =
      .respondError 400 "Query parameter required" ∧
    ∀ s, geocodeHandler (some "") (some "key") ≠ .fetchUpstream s :=
  geocodeHandler_missing_query (some "") (some "key") (Or.inr rfl)

/-! ### Shade-score heuristic (`sampleShadowAlongRoute`) -/

/-- The pseudo-random variation term of the heuristic: `routeHash`
is the point count plus the two coordinate entries of the first
point; geometries with more than 100 points are treated as
shade-optimized and get the 20–50 band, the rest the 0–30 band. -/
noncomputable def routeVariation (coordinates : List (ℝ × ℝ)) : ℝ :=
  let p0 := coordinates.headD (0, 0)
  let routeHash : ℝ := coordinates.length + p0.1 + p0.2
  if 100 < coordinates.length then 20 + (Real.sin routeHash + 1) * 15
  else (Real.sin routeHash + 1) * 15

/-- The time-of-day estimate of `sampleShadowAlongRoute` (the code
after the shade-map guard; the sampled points it also computes are
never read by the score): daylight is `hour >= 6 && hour <= 18`,
giving a noon-distance base capped at 60 plus the variation term,
night gives 95, and the result is clamped to [0, 100]. -/
noncomputable def shadeHeuristic (coordinates : List (ℝ × ℝ)) (minutesOfDay : ℕ) : ℝ :=
  let hour := minutesOfDay / 60
  let shadeScore : ℝ :=
    if 6 ≤ hour ∧ hour ≤ 18 then
      let noonDistance : ℝ := |(hour : ℝ) - 12|
      let baseShade := min (noonDistance * 8) 60
      baseShade + routeVariation coordinates
    else 95
  min 100 (max 0 shadeScore)

/-- `sampleShadowAlongRoute`: 50 when the shade-map layer reference
is not initialized, otherwise the time-of-day heuristic. -/
noncomputable def sampleShadowAlongRoute (hasShadeMap : Bool)
    (coordinates : List (ℝ × ℝ)) (minutesOfDay : ℕ) : ℝ :=
  if hasShadeMap = false then 50
  else shadeHeuristic coordinates minutesOfDay

theorem sampleShadow_hasShadeMap (coordinates : List (ℝ × ℝ)) (m : ℕ) :
    sampleShadowAlongRoute true coordinates m = shadeHeuristic coordinates m := by
  simp [sampleShadowAlongRoute]

/-- In the daylight branch the clamp applies to base-plus-variation. -/
theorem shadeHeuristic_day (coordinates : List (ℝ × ℝ)) (m : ℕ)
    (h1 : 6 ≤ m / 60) (h2 : m / 60 ≤ 18) :
    shadeHeuristic coordinates m =
      min 100 (max 0 (min (|((m / 60 : ℕ) : ℝ) - 12| * 8) 60 +
        routeVariation coordinates)) := by
  simp only [shadeHeuristic]
  rw [if_pos ⟨h1, h2⟩]

/-- Outside `6 ≤ hour ≤ 18` the heuristic gives 95. -/
theorem shadeHeuristic_night (coordinates : List (ℝ × ℝ)) (m : ℕ)
    (h : m / 60 < 6 ∨ 18 < m / 60) :
    shadeHeuristic coordinates m = 95 := by
  simp only [shadeHeuristic]
  rw [if_neg]
  · norm_num
  · rcases h with h | h
    · exact fun hc => absurd hc.1 (not_le.mpr h)
    · exact fun hc => absurd hc.2 (not_le.mpr h)

/-- The variation term sits in [0, 30] for geometries of at most 100
points and in [20, 50] for longer ones. -/
theorem routeVariation_bounds (coordinates : List (ℝ × ℝ)) :
    (coordinates.length ≤ 100 →
      0 ≤ routeVariation coordinates ∧ routeVariation coordinates ≤ 30) ∧
    (100 < coordinates.length →
      20 ≤ routeVariation coordinates ∧ routeVariation coordinates ≤ 50) := by
  have hs1 := Real.neg_one_le_sin
    ((coordinates.length : ℝ) + (coordinates.headD (0, 0)).1 + (coordinates.headD (0, 0)).2)
  have hs2 := Real.sin_le_one
    ((coordinates.length : ℝ) + (coordinates.headD (0, 0)).1 + (coordinates.headD (0, 0)).2)
  constructor
  · intro h
    have hn : ¬ 100 < coordinates.length := not_lt.mpr h
    simp only [routeVariation, if_neg hn]
    constructor <;> nlinarith
  · intro h
    simp only [routeVariation, if_pos h]
    constructor <;> nlinarith

/-! ### Claim C10: missing shade-map layer -/

/-- C10: when the shade-map layer reference is not initialized, the
scoring function returns 50 for every geometry and time, without
touching the day/night heuristic. -/
theorem sampleShadow_no_shadeMap (coordinates : List (ℝ × ℝ)) (m : ℕ) :
    sampleShadowAlongRoute false coordinates m = 50 := by
  simp [sampleShadowAlongRoute]

/-! ### Claim C2: night-time score -/

/-- Counterexample to C2 as stated: 18:00 (1080 minutes) has hour
component 18, outside [6, 18), yet the daylight branch fires because
the code tests `hour <= 18`; on a one-point geometry at (-0.5, -0.5)
the score is 48 + 15 = 63, not 95. -/
theorem sampleShadow_hour18_counterexample :
    (1080 : ℕ) / 60 = 18 ∧
    sampleShadowAlongRoute true [((-0.5 : ℝ), -0.5)] 1080 = 63 ∧
    sampleShadowAlongRoute true [((-0.5 : ℝ), -0.5)] 1080 ≠ 95 := by
  have hv : routeVariation [((-0.5 : ℝ), -0.5)] = 15 := by
    simp only [routeVariation, List.length_cons, List.length_nil, List.headD_cons]
    norm_num
  have h : sampleShadowAlongRoute true [((-0.5 : ℝ), -0.5)] 1080 = 63 := by
    rw [sampleShadow_hasShadeMap,
      shadeHeuristic_day _ 1080 (by norm_num) (by norm_num), hv]
    norm_num
  exact ⟨by norm_num, h, by rw [h]; norm_num⟩

/-- C2 (amended): for every geometry and every time whose hour
component is outside the closed interval [6, 18] — below 6 or above
18 — the heuristic (shade-map layer present) returns exactly 95. -/
theorem sampleShadow_night (coordinates : List (ℝ × ℝ)) (m : ℕ)
    (h : m / 60 < 6 ∨ 18 < m / 60) :
    sampleShadowAlongRoute true coordinates m = 95 := by
  rw [sampleShadow_hasShadeMap]
  exact shadeHeuristic_night coordinates m h

/-- Witness for C2 at 20:00 (1200 minutes, hour 20). -/
theorem sampleShadow_night_witness :
    sampleShadowAlongRoute true [((-0.5 : ℝ), -0.5)] 1200 = 95 :=
  sampleShadow_night [((-0.5 : ℝ), -0.5)] 1200 (Or.inr (by norm_num))

/-! ### Claim C3: daylight score formula -/

/-- C3: for a geometry with at least one point and an hour in
[6, 18), the score is `clamp(baseShade + routeVariation, 0, 100)`
with `baseShade = min(|hour-12| * 8, 60)`, and the variation term is
`(sin(pointCount + lat0 + lng0) + 1) * 15` in [0, 30] for at most
100 points and `20 + (sin(pointCount + lat0 + lng0) + 1) * 15` in
[20, 50] for more (first stored point `(lng0, lat0)`). -/
theorem sampleShadow_day_formula (coordinates : List (ℝ × ℝ)) (m : ℕ)
    (hne : coordinates ≠ []) (h1 : 6 ≤ m / 60) (h2 : m / 60 < 18) :
    sampleShadowAlongRoute true coordinates m =
      min 100 (max 0 (min (|((m / 60 : ℕ) : ℝ) - 12| * 8) 60 +
        routeVariation coordinates)) ∧
    (coordinates.length ≤ 100 →
      routeVariation coordinates =
        (Real.sin ((coordinates.length : ℝ) + (coordinates.headD (0, 0)).2 +
          (coordinates.headD (0, 0)).1) + 1) * 15 ∧
      0 ≤ routeVariation coordinates ∧ routeVariation coordinates ≤ 30) ∧
    (100 < coordinates.length →
      routeVariation coordinates =
        20 + (Real.sin ((coordinates.length : ℝ) + (coordinates.headD (0, 0)).2 +
          (coordinates.headD (0, 0)).1) + 1) * 15 ∧
      20 ≤ routeVariation coordinates ∧ routeVariation coordinates ≤ 50) := by
  have harg : (coordinates.length : ℝ) + (coordinates.headD (0, 0)).2 +
      (coordinates.headD (0, 0)).1 =
      (coordinates.length : ℝ) + (coordinates.headD (0, 0)).1 +
        (coordinates.headD (0, 0)).2 := by ring
  refine ⟨?_, ?_, ?_⟩
  · rw [sampleShadow_hasShadeMap]
    exact shadeHeuristic_day coordinates m h1 (le_of_lt h2)
  · intro h
    have hn : ¬ 100 < coordinates.length := not_lt.mpr h
    refine ⟨?_, (routeVariation_bounds coordinates).1 h⟩
    simp only [routeVariation, if_neg hn, harg]
  · intro h
    refine ⟨?_, (routeVariation_bounds coordinates).2 h⟩
    simp only [routeVariation, if_pos h, harg]

/-- Witness for C3 at noon (720 minutes) on the one-point geometry
at (-0.5, -0.5). -/
theorem sampleShadow_day_formula_witness :
    sampleShadowAlongRoute true [((-0.5 : ℝ), -0.5)] 720 =
      min 100 (max 0 (min (|(((720 : ℕ) / 60 : ℕ) : ℝ) - 12| * 8) 60 +
        routeVariation [((-0.5 : ℝ), -0.5)])) ∧
    ([((-0.5 : ℝ), -0.5)].length ≤ 100 →
      routeVariation [((-0.5 : ℝ), -0.5)] =
        (Real.sin (([((-0.5 : ℝ), -0.5)].length : ℝ) +
          ([((-0.5 : ℝ), -0.5)].headD (0, 0)).2 +
          ([((-0.5 : ℝ), -0.5)].headD (0, 0)).1) + 1) * 15 ∧
      0 ≤ routeVariation [((-0.5 : ℝ), -0.5)] ∧
      routeVariation [((-0.5 : ℝ), -0.5)] ≤ 30) ∧
    (100 < [((-0.5 : ℝ), -0.5)].length →
      routeVariation [((-0.5 : ℝ), -0.5)] =
        20 + (Real.sin (([((-0.5 : ℝ), -0.5)].length : ℝ) +
          ([((-0.5 : ℝ), -0.5)].headD (0, 0)).2 +
          ([((-0.5 : ℝ), -0.5)].headD (0, 0)).1) + 1) * 15 ∧
      20 ≤ routeVariation [((-0.5 : ℝ), -0.5)] ∧
      routeVariation [((-0.5 : ℝ), -0.5)] ≤ 50) :=
  sampleShadow_day_formula [((-0.5 : ℝ), -0.5)] 720
    (List.cons_ne_nil _ _) (by norm_num) (by norm_num)

/-! ### Claim C4: monotonicity and range in daylight -/

/-- C4: with the geometry (hence the variation term) fixed and both
hours in [6, 18), the score is monotone in the distance from noon,
and every daylight score lies in [0, 100]. -/
theorem sampleShadow_monotone (coordinates : List (ℝ × ℝ)) (m1 m2 : ℕ)
    (h1a : 6 ≤ m1 / 60) (h1b : m1 / 60 < 18)
    (h2a : 6 ≤ m2 / 60) (h2b : m2 / 60 < 18)
    (hmono : |((m1 / 60 : ℕ) : ℝ) - 12| ≤ |((m2 / 60 : ℕ) : ℝ) - 12|) :
    sampleShadowAlongRoute true coordinates m1 ≤
      sampleShadowAlongRoute true coordinates m2 ∧
    0 ≤ sampleShadowAlongRoute true coordinates m1 ∧
    sampleShadowAlongRoute true coordinates m1 ≤ 100 := by
  rw [sampleShadow_hasShadeMap, sampleShadow_hasShadeMap,
    shadeHeuristic_day coordinates m1 h1a (le_of_lt h1b),
    shadeHeuristic_day coordinates m2 h2a (le_of_lt h2b)]
  have hmul : |((m1 / 60 : ℕ) : ℝ) - 12| * 8 ≤ |((m2 / 60 : ℕ) : ℝ) - 12| * 8 :=
    mul_le_mul_of_nonneg_right hmono (by norm_num)
  have hmin : min (|((m1 / 60 : ℕ) : ℝ) - 12| * 8) 60 ≤
      min (|((m2 / 60 : ℕ) : ℝ) - 12| * 8) 60 := min_le_min hmul le_rfl
  have hadd := add_le_add_right hmin (routeVariation coordinates)
  exact ⟨min_le_min le_rfl (max_le_max le_rfl hadd),
    le_min (by norm_num) (le_max_left _ _), min_le_left _ _⟩

/-- Witness for C4: noon (720 minutes) against 15:00 (900 minutes). -/
theorem sampleShadow_monotone_witness :
    sampleShadowAlongRoute true [((-0.5 : ℝ), -0.5)] 720 ≤
      sampleShadowAlongRoute true [((-0.5 : ℝ), -0.5)] 900 ∧
    0 ≤ sampleShadowAlongRoute true [((-0.5 : ℝ), -0.5)] 720 ∧
    sampleShadowAlongRoute true [((-0.5 : ℝ), -0.5)] 720 ≤ 100 :=
  sampleShadow_monotone [((-0.5 : ℝ), -0.5)] 720 900
    (by norm_num) (by norm_num) (by norm_num) (by norm_num) (by norm_num)

/-! ### Waypoint generation (`generateShadedWaypoints`) -/

/-- Straight-line start–end distance in degrees (start and end are
`(lat, lng)` pairs). -/
noncomputable def pointDistance (s e : ℝ × ℝ) : ℝ :=
  Real.sqrt ((e.1 - s.1) ^ 2 + (e.2 - s.2) ^ 2)

/-- The offset-magnitude variable of the waypoint generator: 30% of
the distance, capped at 0.002 degrees (~200 m). -/
noncomputable def offsetDistance (s e : ℝ × ℝ) : ℝ :=
  min (pointDistance s e * 0.3) 0.002

/-- The latitude offset applied to each waypoint: negative (south)
for sun azimuth below 180°, positive (north) otherwise, scaled by
0.7. -/
noncomputable def latOffset (s e : ℝ × ℝ) (sunAzimuth : ℝ) : ℝ :=
  if sunAzimuth < 180 then -offsetDistance s e * 0.7
  else offsetDistance s e * 0.7

/-- The longitude offset applied to each waypoint: same rule as the
latitude offset. -/
noncomputable def lngOffset (s e : ℝ × ℝ) (sunAzimuth : ℝ) : ℝ :=
  if sunAzimuth < 180 then -offsetDistance s e * 0.7
  else offsetDistance s e * 0.7

/-- `generateShadedWaypoints`: no waypoints for distances below
0.005 degrees; two offset waypoints at the 0.33 and 0.67
interpolation fractions for distances above 0.01 degrees; otherwise
one offset waypoint at the midpoint. -/
noncomputable def generateShadedWaypoints (s e : ℝ × ℝ) (sunAzimuth : ℝ) :
    List (ℝ × ℝ) :=
  let midLat := (s.1 + e.1) / 2
  let midLng := (s.2 + e.2) / 2
  if pointDistance s e < 0.005 then []
  else if 0.01 < pointDistance s e then
    [(s.1 + (e.1 - s.1) * 0.33 + latOffset s e sunAzimuth,
      s.2 + (e.2 - s.2) * 0.33 + lngOffset s e sunAzimuth),
     (s.1 + (e.1 - s.1) * 0.67 + latOffset s e sunAzimuth,
      s.2 + (e.2 - s.2) * 0.67 + lngOffset s e sunAzimuth)]
  else
    [(midLat + latOffset s e sunAzimuth, midLng + lngOffset s e sunAzimuth)]

/-- Concrete evaluation: a 3-4-5 right triangle gives distance 0.05
degrees between (0, 0) and (0.03, 0.04). -/
theorem pointDistance_example :
    pointDistance ((0 : ℝ), (0 : ℝ)) ((0.03 : ℝ), (0.04 : ℝ)) = 0.05 := by
  simp only [pointDistance]
  rw [show ((0.03 : ℝ) - 0) ^ 2 + ((0.04 : ℝ) - 0) ^ 2 = 0.05 ^ 2 by norm_num]
  exact Real.sqrt_sq (by norm_num)

/-- Concrete evaluation of the latitude offset at the example input
(morning azimuth 90°): the cap is active, so −0.002 × 0.7. -/
theorem latOffset_example :
    latOffset ((0 : ℝ), (0 : ℝ)) ((0.03 : ℝ), (0.04 : ℝ)) 90 = -0.0014 := by
  simp only [latOffset, offsetDistance, pointDistance_example]
  rw [if_pos (by norm_num : (90 : ℝ) < 180),
    show min ((0.05 : ℝ) * 0.3) 0.002 = 0.002 by
      rw [min_eq_right] <;> norm_num]
  norm_num

/-- Concrete evaluation of the longitude offset at the example. -/
theorem lngOffset_example :
    lngOffset ((0 : ℝ), (0 : ℝ)) ((0.03 : ℝ), (0.04 : ℝ)) 90 = -0.0014 := by
  simp only [lngOffset, offsetDistance, pointDistance_example]
  rw [if_pos (by norm_num : (90 : ℝ) < 180),
    show min ((0.05 : ℝ) * 0.3) 0.002 = 0.002 by
      rw [min_eq_right] <;> norm_num]
  norm_num

/-- Concrete evaluation of the generated waypoints at the example:
two waypoints, at the 0.33/0.67 fractions shifted by −0.0014. -/
theorem generateShadedWaypoints_example :
    generateShadedWaypoints ((0 : ℝ), (0 : ℝ)) ((0.03 : ℝ), (0.04 : ℝ)) 90 =
      [((0.0085 : ℝ), (0.0118 : ℝ)), ((0.0187 : ℝ), (0.0254 : ℝ))] := by
  simp only [generateShadedWaypoints, pointDistance_example,
    latOffset_example, lngOffset_example]
  rw [if_neg (by norm_num : ¬ (0.05 : ℝ) < 0.005),
    if_pos (by norm_num : (0.01 : ℝ) < 0.05)]
  norm_num

/-! ### Claim C5: waypoint count and placement -/

/-- Counterexample to C5 as stated: at start (0, 0), end
(0.03, 0.04), azimuth 90° the route is long (distance 0.05 > 0.01),
and the first generated waypoint has latitude 0.0085 — the 0.33
fraction plus the offset — while the 1/3 interpolation point plus
the same offset has latitude 0.0086. -/
theorem generateShadedWaypoints_third_counterexample :
    ((generateShadedWaypoints ((0 : ℝ), (0 : ℝ)) ((0.03 : ℝ), (0.04 : ℝ)) 90).headD
      (0, 0)).1 = 0.0085 ∧
    (0 : ℝ) + ((0.03 : ℝ) - 0) * (1 / 3) +
      latOffset ((0 : ℝ), (0 : ℝ)) ((0.03 : ℝ), (0.04 : ℝ)) 90 = 0.0086 ∧
    (0.0085 : ℝ) ≠ 0.0086 := by
  refine ⟨?_, ?_, by norm_num⟩
  · rw [generateShadedWaypoints_example]
    norm_num
  · rw [latOffset_example]
    norm_num

/-- C5 (amended): waypoint generation returns 0 waypoints when the
distance is below 0.005 degrees; 2 waypoints, placed at the 0.33 and
0.67 interpolation fractions between start and end and offset, when
it exceeds 0.01 degrees; and 1 waypoint, placed at the midpoint and
offset, otherwise. -/
theorem generateShadedWaypoints_spec (s e : ℝ × ℝ) (az : ℝ) :
    (pointDistance s e < 0.005 → generateShadedWaypoints s e az = []) ∧
    (0.01 < pointDistance s e →
      generateShadedWaypoints s e az =
        [(s.1 + (e.1 - s.1) * 0.33 + latOffset s e az,
          s.2 + (e.2 - s.2) * 0.33 + lngOffset s e az),
         (s.1 + (e.1 - s.1) * 0.67 + latOffset s e az,
          s.2 + (e.2 - s.2) * 0.67 + lngOffset s e az)]) ∧
    (0.005 ≤ pointDistance s e → pointDistance s e ≤ 0.01 →
      generateShadedWaypoints s e az =
        [((s.1 + e.1) / 2 + latOffset s e az,
          (s.2 + e.2) / 2 + lngOffset s e az)]) := by
  refine ⟨?_, ?_, ?_⟩
  · intro h
    simp only [generateShadedWaypoints, if_pos h]
  · intro h
    have hns : ¬ pointDistance s e < 0.005 := by
      intro hc; nlinarith
    simp only [generateShadedWaypoints, if_neg hns, if_pos h]
  · intro h1 h2
    have hns : ¬ pointDistance s e < 0.005 := not_lt.mpr h1
    have hnl : ¬ 0.01 < pointDistance s e := not_lt.mpr h2
    simp only [generateShadedWaypoints, if_neg hns, if_neg hnl]

/-- Witness for C5 at the example input: the long-route branch fires
and yields the two offset waypoints. -/
theorem generateShadedWaypoints_spec_witness :
    generateShadedWaypoints ((0 : ℝ), (0 : ℝ)) ((0.03 : ℝ), (0.04 : ℝ)) 90 =
      [((0 : ℝ) + ((0.03 : ℝ) - 0) * 0.33 +
          latOffset ((0 : ℝ), (0 : ℝ)) ((0.03 : ℝ), (0.04 : ℝ)) 90,
        (0 : ℝ) + ((0.04 : ℝ) - 0) * 0.33 +
          lngOffset ((0 : ℝ), (0 : ℝ)) ((0.03 : ℝ), (0.04 : ℝ)) 90),
       ((0 : ℝ) + ((0.03 : ℝ) - 0) * 0.67 +
          latOffset ((0 : ℝ), (0 : ℝ)) ((0.03 : ℝ), (0.04 : ℝ)) 90,
        (0 : ℝ) + ((0.04 : ℝ) - 0) * 0.67 +
          lngOffset ((0 : ℝ), (0 : ℝ)) ((0.03 : ℝ), (0.04 : ℝ)) 90)] :=
  (generateShadedWaypoints_spec ((0 : ℝ), (0 : ℝ)) ((0.03 : ℝ), (0.04 : ℝ)) 90).2.1
    (by rw [pointDistance_example]; norm_num)

/-! ### Claim C6: waypoint offset magnitude and direction -/

/-- Counterexample to C6 as stated: at the example input the
generator produces waypoints, the cap min(30% of distance, 0.002) is
0.002 degrees, but the applied latitude offset has magnitude
0.7 × 0.002 = 0.0014, not 0.002. -/
theorem waypointOffset_counterexample :
    generateShadedWaypoints ((0 : ℝ), (0 : ℝ)) ((0.03 : ℝ), (0.04 : ℝ)) 90 ≠ [] ∧
    min (pointDistance ((0 : ℝ), (0 : ℝ)) ((0.03 : ℝ), (0.04 : ℝ)) * 0.3) 0.002
      = 0.002 ∧
    |latOffset ((0 : ℝ), (0 : ℝ)) ((0.03 : ℝ), (0.04 : ℝ)) 90| = 0.0014 ∧
    (0.0014 : ℝ) ≠ 0.002 := by
  refine ⟨?_, ?_, ?_, by norm_num⟩
  · rw [generateShadedWaypoints_example]
    simp
  · rw [pointDistance_example, min_eq_right] <;> norm_num
  · rw [latOffset_example]
    norm_num

/-- C6 (amended): whenever waypoints are generated, each coordinate
offset has magnitude 0.7 × min(30% of the start–end distance,
0.002 degrees); both offsets are negative (south-west) for azimuth
below 180° and positive (north-east) otherwise, and every waypoint
is an interpolation point between start and end shifted by exactly
these offsets. -/
theorem waypointOffset_spec (s e : ℝ × ℝ) (az : ℝ)
    (h : generateShadedWaypoints s e az ≠ []) :
    |latOffset s e az| = 0.7 * min (pointDistance s e * 0.3) 0.002 ∧
    |lngOffset s e az| = 0.7 * min (pointDistance s e * 0.3) 0.002 ∧
    (az < 180 → latOffset s e az < 0 ∧ lngOffset s e az < 0) ∧
    (180 ≤ az → 0 < latOffset s e az ∧ 0 < lngOffset s e az) ∧
    ∀ w ∈ generateShadedWaypoints s e az, ∃ t : ℝ,
      w = (s.1 + (e.1 - s.1) * t + latOffset s e az,
           s.2 + (e.2 - s.2) * t + lngOffset s e az) := by
  have hd : ¬ pointDistance s e < 0.005 := by
    intro hc
    exact h (by simp only [generateShadedWaypoints, if_pos hc])
  have hpos : 0 < offsetDistance s e := by
    have h5 : (0.005 : ℝ) ≤ pointDistance s e := not_lt.mp hd
    exact lt_min (by nlinarith) (by norm_num)
  have hmin_eq : offsetDistance s e = min (pointDistance s e * 0.3) 0.002 := rfl
  have habs_lat : |latOffset s e az| = 0.7 * min (pointDistance s e * 0.3) 0.002 := by
    rw [← hmin_eq]
    simp only [latOffset]
    by_cases haz : az < 180
    · rw [if_pos haz, abs_of_nonpos (by nlinarith)]; ring
    · rw [if_neg haz, abs_of_nonneg (by nlinarith)]; ring
  have habs_lng : |lngOffset s e az| = 0.7 * min (pointDistance s e * 0.3) 0.002 := by
    rw [← hmin_eq]
    simp only [lngOffset]
    by_cases haz : az < 180
    · rw [if_pos haz, abs_of_nonpos (by nlinarith)]; ring
    · rw [if_neg haz, abs_of_nonneg (by nlinarith)]; ring
  refine ⟨habs_lat, habs_lng, ?_, ?_, ?_⟩
  · intro haz
    simp only [latOffset, lngOffset, if_pos haz]
    constructor <;> nlinarith
  · intro haz
    have haz' : ¬ az < 180 := not_lt.mpr haz
    simp only [latOffset, lngOffset, if_neg haz']
    constructor <;> nlinarith
  · intro w hw
    by_cases hl : 0.01 < pointDistance s e
    · simp only [generateShadedWaypoints, if_neg hd, if_pos hl,
        List.mem_cons, List.not_mem_nil, or_false] at hw
      rcases hw with hw | hw
      · exact ⟨0.33, hw⟩
      · exact ⟨0.67, hw⟩
    · simp only [generateShadedWaypoints, if_neg hd, if_neg hl,
        List.mem_cons, List.not_mem_nil, or_false] at hw
      refine ⟨0.5, ?_⟩
      rw [hw]
      simp only [Prod.mk.injEq]
      constructor <;> ring

/-- Witness for C6 at the example input (azimuth 90°, distance
0.05): the offsets have magnitude 0.0014 and point south-west. -/
theorem waypointOffset_spec_witness :
    |latOffset ((0 : ℝ), (0 : ℝ)) ((0.03 : ℝ), (0.04 : ℝ)) 90| =
      0.7 * min (pointDistance ((0 : ℝ), (0 : ℝ)) ((0.03 : ℝ), (0.04 : ℝ)) * 0.3)
        0.002 ∧
    |lngOffset ((0 : ℝ), (0 : ℝ)) ((0.03 : ℝ), (0.04 : ℝ)) 90| =
      0.7 * min (pointDistance ((0 : ℝ), (0 : ℝ)) ((0.03 : ℝ), (0.04 : ℝ)) * 0.3)
        0.002 ∧
    ((90 : ℝ) < 180 →
      latOffset ((0 : ℝ), (0 : ℝ)) ((0.03 : ℝ), (0.04 : ℝ)) 90 < 0 ∧
      lngOffset ((0 : ℝ), (0 : ℝ)) ((0.03 : ℝ), (0.04 : ℝ)) 90 < 0) ∧
    ((180 : ℝ) ≤ 90 →
      0 < latOffset ((0 : ℝ), (0 : ℝ)) ((0.03 : ℝ), (0.04 : ℝ)) 90 ∧
      0 < lngOffset ((0 : ℝ), (0 : ℝ)) ((0.03 : ℝ), (0.04 : ℝ)) 90) ∧
    ∀ w ∈ generateShadedWaypoints ((0 : ℝ), (0 : ℝ)) ((0.03 : ℝ), (0.04 : ℝ)) 90,
      ∃ t : ℝ,
        w = ((0 : ℝ) + ((0.03 : ℝ) - 0) * t +
              latOffset ((0 : ℝ), (0 : ℝ)) ((0.03 : ℝ), (0.04 : ℝ)) 90,
             (0 : ℝ) + ((0.04 : ℝ) - 0) * t +
              lngOffset ((0 : ℝ), (0 : ℝ)) ((0.03 : ℝ), (0.04 : ℝ)) 90) :=
  waypointOffset_spec ((0 : ℝ), (0 : ℝ)) ((0.03 : ℝ), (0.04 : ℝ)) 90
    (by rw [generateShadedWaypoints_example]; simp)
